import Mathlib

/-!
Shallow embedding of the authorization and QR-code subsystem of the
life-armada medical-records backend (Express/Mongoose application).

The definitions below are translated from:
  * src/middleware/auth.js            (canAccessPatient, canAccessMedicalRecord, authorize)
  * src/routes/medicalRecords.js      (list, create, update, archive handlers)
  * src/routes/qrCode.js              (buildPatientSnapshot, regenerateQrForPatient,
                                       scan / patient-access / patient-records handlers)
  * src/models/{User,Patient,Hospital,MedicalRecord}.js (document shapes)

Mongoose documents are modelled as Lean structures mirroring the schema;
JavaScript `undefined`-able properties are `Option` values.  A thrown
exception inside a handler's try/catch is modelled by the catch block's
response value (the JS code never lets an exception escape a handler).
-/

namespace MedRec

/-- Roles from the User schema enum ['medical_personnel', 'patient', 'admin']. -/
inductive Role
  | admin
  | medical_personnel
  | patient
deriving DecidableEq, Repr

/-- Patient accessLevel enum ['full', 'limited', 'emergency_only']. -/
inductive AccessLevel
  | full
  | limited
  | emergency_only
deriving DecidableEq, Repr

/-- MedicalRecord status enum ['draft', 'active', 'completed', 'archived']. -/
inductive RecStatus
  | draft
  | active
  | completed
  | archived
deriving DecidableEq, Repr

/-- Hospital status enum ['active', 'inactive', 'suspended']. -/
inductive HospitalStatus
  | active
  | inactive
  | suspended
deriving DecidableEq, Repr

/-- User.profile (the part the authorization middleware reads):
`hospitalId` is a ref that is absent unless set (schema: required only
for medical_personnel, and nothing re-checks this at auth time). -/
structure Profile where
  hospitalId : Option String
deriving DecidableEq, Repr

/-- The authenticated `req.user` document as the middleware reads it.
`patientId` models the raw JS property `user.patientId` read by
canAccessPatient; the User schema declares no such field, so for stored
users it is `none` (JS `undefined`), but the middleware still compares it. -/
structure AuthUser where
  id : String
  role : Role
  profile : Profile
  patientId : Option String
  isActive : Bool
deriving DecidableEq, Repr

/-- One entry of Patient.registeredHospitals. -/
structure RegisteredHospital where
  hospital : String
  isActive : Bool
deriving DecidableEq, Repr

/-- Patient.biodata.contact.emergencyContact subdocument. -/
structure EmergencyContact where
  name : Option String
  relationship : Option String
  phone : Option String
  address : Option String
deriving DecidableEq, Repr

/-- Patient.biodata.contact (phone is schema-required). -/
structure Contact where
  phone : String
  email : Option String
  emergencyContact : Option EmergencyContact
deriving DecidableEq, Repr

/-- Patient.biodata.address (lga and state are schema-required). -/
structure Address where
  street : Option String
  city : Option String
  lga : String
  state : String
  country : String
  postalCode : Option String
deriving DecidableEq, Repr

/-- Patient.biodata; firstName, lastName, age, gender are schema-required. -/
structure Biodata where
  firstName : String
  lastName : String
  middleName : Option String
  age : Int
  gender : String
  address : Address
  contact : Contact
deriving DecidableEq, Repr

/-- One entry of Patient.medicalHistory.allergies. -/
structure Allergy where
  allergen : Option String
  reaction : Option String
  severity : Option String
  notes : Option String
deriving DecidableEq, Repr

/-- One entry of Patient.medicalHistory.chronicIllnesses. -/
structure ChronicIllness where
  condition : Option String
  category : Option String
  severity : Option String
  isActive : Option Bool
  medications : List String
  notes : Option String
deriving DecidableEq, Repr

/-- Patient.medicalHistory. -/
structure MedicalHistory where
  bloodGroup : Option String
  genotype : Option String
  allergies : List Allergy
  chronicIllnesses : List ChronicIllness
deriving DecidableEq, Repr

/-- Patient.emergencySubscription.coverage. -/
structure Coverage where
  emergency : Option Bool
  ambulance : Option Bool
  surgery : Option Bool
  medication : Option Bool
deriving DecidableEq, Repr

/-- Patient.emergencySubscription. -/
structure EmergencySubscription where
  isActive : Option Bool
  subscriptionType : Option String
  coverage : Option Coverage
deriving DecidableEq, Repr

/-- Patient.hmoProvider (the three fields the QR patient-access handler projects). -/
structure HmoProvider where
  providerName : Option String
  policyNumber : Option String
  status : Option String
deriving DecidableEq, Repr

/-- A Patient document.  `calculatedAge` models the mongoose virtual of the
same name (computed from dateOfBirth; `none` when the virtual is not
materialised).  `extraFields` models arbitrary additional properties an
adversarial document object could carry beyond the schema. -/
structure PatientDoc where
  id : String
  patientId : String
  qrCode : Option String
  biodata : Biodata
  calculatedAge : Option Int
  medicalHistory : MedicalHistory
  emergencySubscription : Option EmergencySubscription
  hmoProvider : Option HmoProvider
  primaryHospital : Option String
  registeredHospitals : List RegisteredHospital
  accessLevel : AccessLevel
  isActive : Bool
  updatedAt : Int
  extraFields : List (String × String)
deriving DecidableEq, Repr

/-- A Hospital document (the fields the medical-record routes consult). -/
structure HospitalDoc where
  id : String
  name : String
  status : HospitalStatus
deriving DecidableEq, Repr

/-- A MedicalRecord document (the fields the routes and middleware consult);
`visitDate` is visitInfo.visitDate as a timestamp. -/
structure MRDoc where
  id : String
  patient : String
  hospital : String
  createdBy : String
  visitDate : Nat
  status : RecStatus
  isEmergency : Bool
deriving DecidableEq, Repr

/-- The Entity Store contents. -/
structure DB where
  patients : List PatientDoc
  hospitals : List HospitalDoc
  records : List MRDoc
deriving DecidableEq, Repr

/-- Result of an authorization middleware: `next` passes the request on,
`deny status message` short-circuits with that HTTP response. -/
inductive AccessResult
  | next
  | deny (status : Nat) (message : String)
deriving DecidableEq, Repr

/-- Patient.findById — a missing (undefined) id matches no document. -/
def findPatientById (db : DB) (id : Option String) : Option PatientDoc :=
  match id with
  | none => none
  | some i => db.patients.find? (fun p => p.id == i)

/-- Hospital.findById. -/
def findHospitalById (db : DB) (id : String) : Option HospitalDoc :=
  db.hospitals.find? (fun h => h.id == id)

/-- MedicalRecord.findById — a missing (undefined) id matches no document. -/
def findRecordById (db : DB) (id : Option String) : Option MRDoc :=
  match id with
  | none => none
  | some i => db.records.find? (fun r => r.id == i)

/-- auth.js: `patient.registeredHospitals.some(reg => reg.hospital.toString()
=== user.profile.hospitalId.toString() && reg.isActive)`. -/
def isRegisteredAtHospital (p : PatientDoc) (hid : String) : Bool :=
  p.registeredHospitals.any (fun reg => reg.hospital == hid && reg.isActive)

/-- auth.js canAccessPatient.  For a medical_personnel caller whose
profile.hospitalId is absent, every evaluation of
`user.profile.hospitalId.toString()` throws a TypeError which the
surrounding try/catch turns into the 500 response, so that branch is the
500 response whenever the patient was found (the patient lookup happens
first and still yields 404 when the patient is missing). -/
def canAccessPatient (user : AuthUser) (paramPatientId : Option String) (db : DB) :
    AccessResult :=
  if user.role = Role.admin then AccessResult.next
  else if user.role = Role.medical_personnel then
    match findPatientById db paramPatientId with
    | none => AccessResult.deny 404 "Patient not found"
    | some p =>
      match user.profile.hospitalId with
      | none => AccessResult.deny 500 "Error checking patient access"
      | some hid =>
        if isRegisteredAtHospital p hid then AccessResult.next
        else
          match p.primaryHospital with
          | none => AccessResult.deny 500 "Error checking patient access"
          | some ph =>
            if ph == hid then AccessResult.next
            else AccessResult.deny 403 "Access denied - patient not registered at your hospital"
  else if user.role = Role.patient then
    if user.patientId == paramPatientId then AccessResult.next
    else AccessResult.deny 403 "Access denied - can only access own records"
  else AccessResult.deny 403 "Access denied"

/-- auth.js canAccessMedicalRecord. -/
def canAccessMedicalRecord (user : AuthUser) (paramRecordId : Option String) (db : DB) :
    AccessResult :=
  match findRecordById db paramRecordId with
  | none => AccessResult.deny 404 "Medical record not found"
  | some r =>
    if user.role = Role.admin then AccessResult.next
    else if user.role = Role.medical_personnel then
      match user.profile.hospitalId with
      | none => AccessResult.deny 500 "Error checking medical record access"
      | some hid =>
        if r.hospital == hid then AccessResult.next
        else AccessResult.deny 403 "Access denied - record not from your hospital"
    else if user.role = Role.patient then
      if user.patientId == some r.patient then AccessResult.next
      else AccessResult.deny 403 "Access denied - can only access own records"
    else AccessResult.deny 403 "Access denied"

/-- auth.js authorize(...roles). -/
def authorizeRoles (roles : List Role) (user : AuthUser) : AccessResult :=
  if roles.contains user.role then AccessResult.next
  else AccessResult.deny 403 "Insufficient permissions"

/-- The sort key of `.sort(\x7b 'visitInfo.visitDate': -1 \x7d)`:
descending by visit date. -/
def recDesc (a b : MRDoc) : Prop :=
  b.visitDate ≤ a.visitDate

instance : DecidableRel recDesc :=
  fun a b => Nat.decLe b.visitDate a.visitDate

instance : IsTotal MRDoc recDesc :=
  ⟨fun a b => Nat.le_total b.visitDate a.visitDate⟩

instance : IsTrans MRDoc recDesc :=
  ⟨fun _ _ _ hab hbc => Nat.le_trans hbc hab⟩

/-- medicalRecords.js GET / — the hospital scoping clause: `if
(req.user.role === 'medical_personnel' && req.user.profile?.hospitalId)
query.hospital = ...`.  A medical_personnel caller without a hospitalId
falls through with no hospital restriction. -/
def listHospitalScope (user : AuthUser) : Option String :=
  if user.role = Role.medical_personnel then user.profile.hospitalId else none

/-- medicalRecords.js GET / handler at default query parameters
(no filters, page=1, limit=10), after authorize('medical_personnel',
'admin'): build the query, sort descending by visit date, paginate.
`none` is the middleware's 403 short-circuit. -/
def listMedicalRecords (user : AuthUser) (db : DB) : Option (List MRDoc) :=
  match authorizeRoles [Role.medical_personnel, Role.admin] user with
  | AccessResult.deny _ _ => none
  | AccessResult.next =>
    let query : MRDoc → Bool := fun r =>
      match listHospitalScope user with
      | some h => r.hospital == h
      | none => true
    some ((List.insertionSort recDesc (db.records.filter query)).take 10)

/-- The request body of POST /api/medical-records (the fields the handler
consults plus the stored payload). -/
structure CreateRecordBody where
  patient : String
  hospital : String
  visitDate : Nat
  status : RecStatus
  isEmergency : Bool
deriving DecidableEq, Repr

/-- Outcome of POST /api/medical-records. -/
inductive CreateRecordResult
  | forbidden
  | badRequest (message : String)
  | created (r : MRDoc)
deriving DecidableEq, Repr

/-- medicalRecords.js POST / handler: authorize('medical_personnel',
'admin'), then `Patient.findById(patient)` and `Hospital.findById(hospital)`
existence checks (400 on either miss), then the record is saved.  The
handler never consults `patientExists.isActive`, `hospitalExists.status`,
or the caller's own hospitalId. -/
def createMedicalRecord (user : AuthUser) (body : CreateRecordBody) (newId : String)
    (db : DB) : CreateRecordResult :=
  match authorizeRoles [Role.medical_personnel, Role.admin] user with
  | AccessResult.deny _ _ => CreateRecordResult.forbidden
  | AccessResult.next =>
    match findPatientById db (some body.patient) with
    | none => CreateRecordResult.badRequest "Patient not found"
    | some _ =>
      match findHospitalById db body.hospital with
      | none => CreateRecordResult.badRequest "Hospital not found"
      | some _ =>
        CreateRecordResult.created
          { id := newId
            patient := body.patient
            hospital := body.hospital
            createdBy := user.id
            visitDate := body.visitDate
            status := body.status
            isEmergency := body.isEmergency }

/-- medicalRecords.js DELETE /:recordId — `findByIdAndUpdate(recordId,
\x7b $set: \x7b status: 'archived' \x7d \x7d)`: the store-level effect of
archiving. -/
def archiveMedicalRecord (db : DB) (recordId : String) : DB :=
  { db with
    records := db.records.map (fun r =>
      if r.id == recordId then { r with status := RecStatus.archived } else r) }

/-- The access decision guarding PUT /api/medical-records/:recordId:
authorize('medical_personnel', 'admin') then canAccessMedicalRecord.
Nothing on this path reads the record's status. -/
def putMedicalRecordDecision (user : AuthUser) (paramRecordId : Option String)
    (db : DB) : AccessResult :=
  match authorizeRoles [Role.medical_personnel, Role.admin] user with
  | AccessResult.deny s m => AccessResult.deny s m
  | AccessResult.next => canAccessMedicalRecord user paramRecordId db

/-- The access decision guarding GET /api/medical-records/:recordId:
just canAccessMedicalRecord (no role allow-list on the read route). -/
def getMedicalRecordDecision (user : AuthUser) (paramRecordId : Option String)
    (db : DB) : AccessResult :=
  canAccessMedicalRecord user paramRecordId db

/-- A JavaScript value as assembled by the response-shaping helpers in
qrCode.js (object literals, arrays, primitives, `undefined`). -/
inductive JVal
  | str (s : String)
  | num (n : Int)
  | bool (b : Bool)
  | undef
  | arr (items : List JVal)
  | obj (fields : List (String × JVal))

mutual

/-- Every key occurring anywhere in a JS value (recursively through arrays
and nested objects). -/
def allKeys : JVal → List String
  | JVal.arr items => allKeysList items
  | JVal.obj fields => allKeysFields fields
  | _ => []

/-- Keys occurring in a list of JS values. -/
def allKeysList : List JVal → List String
  | [] => []
  | v :: vs => allKeys v ++ allKeysList vs

/-- Keys occurring in an object's field list, each field's key included. -/
def allKeysFields : List (String × JVal) → List String
  | [] => []
  | (k, v) :: fs => k :: (allKeys v ++ allKeysFields fs)

end

/-- Top-level keys of an object value. -/
def topKeys : JVal → List String
  | JVal.obj fields => fields.map Prod.fst
  | _ => []

/-- An optional string property (`undefined` when absent). -/
def optStr : Option String → JVal
  | some s => JVal.str s
  | none => JVal.undef

/-- An optional boolean property (`undefined` when absent). -/
def optBool : Option Bool → JVal
  | some b => JVal.bool b
  | none => JVal.undef

/-- qrCode.js buildPatientSnapshot: the allergy projection `\x7b allergen,
reaction, severity \x7d`. -/
def allergyJ (a : Allergy) : JVal :=
  JVal.obj [("allergen", optStr a.allergen), ("reaction", optStr a.reaction),
    ("severity", optStr a.severity)]

/-- qrCode.js buildPatientSnapshot: the chronic-illness projection
`\x7b condition, severity, isActive \x7d`. -/
def chronicJ (c : ChronicIllness) : JVal :=
  JVal.obj [("condition", optStr c.condition), ("severity", optStr c.severity),
    ("isActive", optBool c.isActive)]

/-- Coverage subdocument passed through as
`coverage: patient.emergencySubscription.coverage`. -/
def coverageJ : Option Coverage → JVal
  | some c =>
    JVal.obj [("emergency", optBool c.emergency), ("ambulance", optBool c.ambulance),
      ("surgery", optBool c.surgery), ("medication", optBool c.medication)]
  | none => JVal.undef

/-- qrCode.js buildPatientSnapshot: `patient.emergencySubscription ? \x7b
isActive, subscriptionType, coverage \x7d : undefined`. -/
def subscriptionJ : Option EmergencySubscription → JVal
  | some es =>
    JVal.obj [("isActive", optBool es.isActive),
      ("subscriptionType", optStr es.subscriptionType),
      ("coverage", coverageJ es.coverage)]
  | none => JVal.undef

/-- qrCode.js buildPatientSnapshot: `patient.biodata?.contact?.emergencyContact
|| \x7b\x7d` then the `\x7b name, relationship, phone \x7d` projection —
the emergencyContact's own `address` subfield is dropped. -/
def emergencyContactJ : Option EmergencyContact → JVal
  | some ec =>
    JVal.obj [("name", optStr ec.name), ("relationship", optStr ec.relationship),
      ("phone", optStr ec.phone)]
  | none =>
    JVal.obj [("name", JVal.undef), ("relationship", JVal.undef),
      ("phone", JVal.undef)]

/-- The Patient `fullName` virtual. -/
def patientFullName (p : PatientDoc) : String :=
  p.biodata.firstName ++ " " ++
    (match p.biodata.middleName with
     | some m => m ++ " "
     | none => "") ++ p.biodata.lastName

/-- buildPatientSnapshot's `age: patient.calculatedAge ?? patient.biodata?.age`. -/
def snapshotAge (p : PatientDoc) : JVal :=
  match p.calculatedAge with
  | some a => JVal.num a
  | none => JVal.num p.biodata.age

/-- qrCode.js buildPatientSnapshot: the public QR-scan projection of a
patient document.  It is an object literal with exactly these eleven keys;
no other property of the input document (hmoProvider, biodata.address,
extraFields, ...) flows into it. -/
def buildPatientSnapshot (p : PatientDoc) : JVal :=
  JVal.obj
    [("patientId", JVal.str p.patientId),
     ("fullName", JVal.str (patientFullName p)),
     ("gender", JVal.str p.biodata.gender),
     ("age", snapshotAge p),
     ("bloodGroup", optStr p.medicalHistory.bloodGroup),
     ("genotype", optStr p.medicalHistory.genotype),
     ("allergies", JVal.arr (p.medicalHistory.allergies.map allergyJ)),
     ("chronicIllnesses", JVal.arr (p.medicalHistory.chronicIllnesses.map chronicJ)),
     ("emergencySubscription", subscriptionJ p.emergencySubscription),
     ("emergencyContact", emergencyContactJ p.biodata.contact.emergencyContact),
     ("lastUpdated", JVal.num p.updatedAt)]

/-- The findOne query shared by the public QR routes:
`Patient.findOne(\x7b qrCode: req.params.qrCode, isActive: true \x7d)`. -/
def scanLookup (db : DB) (code : String) : Option PatientDoc :=
  db.patients.find? (fun p => p.qrCode == some code && p.isActive)

/-- qrCode.js regenerateQrForPatient: the new code is
`LAMR-$\x7bpatient.patientId\x7d-$\x7btimestamp\x7d` with
`timestamp = Date.now()`. -/
def regenCode (patientId : String) (now : Nat) : String :=
  "LAMR-" ++ patientId ++ "-" ++ toString now

/-- qrCode.js regenerateQrForPatient: overwrite the patient's qrCode with
the newly built code and save. -/
def regenerateQrForPatient (db : DB) (patientDbId : String) (now : Nat) : DB :=
  { db with
    patients := db.patients.map (fun p =>
      if p.id == patientDbId then { p with qrCode := some (regenCode p.patientId now) }
      else p) }

/-- Response of GET /api/qr/scan/:qrCode: 404 when the lookup misses, a
500 with the caught exception's message in the `error` field, or the
snapshot plus accessLevel. -/
inductive ScanResponse
  | notFound
  | serverError (message : String) (errField : Option String)
  | ok (snapshot : JVal) (accessLevel : AccessLevel)

/-- A store call that either completed (possibly finding nothing) or threw
an exception carrying a message (e.g. a CastError for a malformed id). -/
inductive StoreResult (α : Type)
  | ok (value : Option α)
  | err (message : String)

/-- qrCode.js GET /scan/:qrCode handler, over the outcome of the store
lookup: the catch block answers 500 with `error: error.message`. -/
def scanHandler (lookup : StoreResult PatientDoc) : ScanResponse :=
  match lookup with
  | StoreResult.err m => ScanResponse.serverError "Failed to scan QR code" (some m)
  | StoreResult.ok none => ScanResponse.notFound
  | StoreResult.ok (some p) => ScanResponse.ok (buildPatientSnapshot p) p.accessLevel

/-- Response of GET /api/patients/:id (src/unnamed/part_002): its catch
block also answers 500 with `error: error.message`. -/
inductive PatientByIdResponse
  | notFound
  | serverError (message : String) (errField : Option String)
  | ok (patient : PatientDoc)
deriving DecidableEq, Repr

/-- part_002 GET /:id handler over the outcome of the store lookup. -/
def getPatientByIdHandler (lookup : StoreResult PatientDoc) : PatientByIdResponse :=
  match lookup with
  | StoreResult.err m => PatientByIdResponse.serverError "Failed to get patient" (some m)
  | StoreResult.ok none => PatientByIdResponse.notFound
  | StoreResult.ok (some p) => PatientByIdResponse.ok p

/-- Response of GET /api/qr/patient-access/:qrCode. -/
inductive PatientAccessResponse
  | notFound
  | ok (snapshot : JVal) (hmo : Option (Option String × Option String × Option String))
      (accessLevel : AccessLevel)

/-- qrCode.js GET /patient-access/:qrCode handler: on a hit it always
answers with the snapshot, the hmoProvider projection `\x7b providerName,
policyNumber, status \x7d` when the patient has one, and the accessLevel —
with no gate on the accessLevel itself. -/
def patientAccessHandler (db : DB) (code : String) : PatientAccessResponse :=
  match scanLookup db code with
  | none => PatientAccessResponse.notFound
  | some p =>
    PatientAccessResponse.ok (buildPatientSnapshot p)
      (p.hmoProvider.map (fun h => (h.providerName, h.policyNumber, h.status)))
      p.accessLevel

/-- Response of GET /api/qr/patient-records/:qrCode; `restricted` is the
403 'Patient has restricted record access'. -/
inductive QrRecordsResponse
  | notFound
  | restricted
  | ok (patientId : String) (accessLevel : AccessLevel) (records : List MRDoc)
deriving DecidableEq, Repr

/-- qrCode.js GET /patient-records/:qrCode handler: resolve the patient by
qrCode (active only), refuse emergency_only patients outright, otherwise
return the patient's non-archived records sorted descending by visit date
and capped at 5 (the route then maps buildRecordSummary over them, which
preserves count, order and status). -/
def patientRecordsHandler (db : DB) (code : String) : QrRecordsResponse :=
  match scanLookup db code with
  | none => QrRecordsResponse.notFound
  | some p =>
    if p.accessLevel = AccessLevel.emergency_only then QrRecordsResponse.restricted
    else
      QrRecordsResponse.ok p.patientId p.accessLevel
        ((List.insertionSort recDesc
          (db.records.filter (fun r => r.patient == p.id && !(r.status == RecStatus.archived)))).take 5)

/-! Concrete fixtures used by counterexamples and witnesses. -/

/-- A minimal contact subdocument. -/
def contact0 : Contact :=
  { phone := "0800000000", email := none, emergencyContact := none }

/-- A minimal address subdocument. -/
def address0 : Address :=
  { street := none, city := none, lga := "Ikeja", state := "Lagos",
    country := "Nigeria", postalCode := none }

/-- A minimal biodata subdocument. -/
def biodata0 : Biodata :=
  { firstName := "Ada", lastName := "Obi", middleName := none, age := 30,
    gender := "female", address := address0, contact := contact0 }

/-- An empty medical history. -/
def mh0 : MedicalHistory :=
  { bloodGroup := none, genotype := none, allergies := [], chronicIllnesses := [] }

/-- An active patient whose primary hospital is H2 and who is registered
nowhere else. -/
def patientP1 : PatientDoc :=
  { id := "P1", patientId := "PA000001", qrCode := some ("LAMR-PA000001-5"),
    biodata := biodata0, calculatedAge := none, medicalHistory := mh0,
    emergencySubscription := none, hmoProvider := none,
    primaryHospital := some ("H2"), registeredHospitals := [],
    accessLevel := AccessLevel.limited, isActive := true, updatedAt := 0,
    extraFields := [] }

/-- An inactive patient. -/
def patientP2inactive : PatientDoc :=
  { patientP1 with
    id := "P2"
    patientId := "PA000002"
    qrCode := none
    isActive := false }

/-- An active patient with an active registration at hospital H1. -/
def patientP3 : PatientDoc :=
  { patientP1 with
    id := "P3"
    patientId := "PA000003"
    qrCode := none
    primaryHospital := some ("H2")
    registeredHospitals := [{ hospital := "H1", isActive := true }] }

/-- A medical_personnel user whose profile has no hospitalId. -/
def mpNoHospital : AuthUser :=
  { id := "U1", role := Role.medical_personnel, profile := { hospitalId := none },
    patientId := none, isActive := true }

/-- A medical_personnel user attached to hospital H1. -/
def mpH1 : AuthUser :=
  { id := "U2", role := Role.medical_personnel,
    profile := { hospitalId := some ("H1") }, patientId := none, isActive := true }

/-- A patient-role user whose patientId property is P0. -/
def patientUserP0 : AuthUser :=
  { id := "U3", role := Role.patient, profile := { hospitalId := none },
    patientId := some ("P0"), isActive := true }

/-- A record at hospital H1 for patient P1. -/
def recR1 : MRDoc :=
  { id := "R1", patient := "P1", hospital := "H1", createdBy := "U2",
    visitDate := 10, status := RecStatus.active, isEmergency := false }

/-- A record at hospital H2 for patient P1. -/
def recR2 : MRDoc :=
  { id := "R2", patient := "P1", hospital := "H2", createdBy := "U2",
    visitDate := 5, status := RecStatus.active, isEmergency := false }

/-- An inactive hospital H2. -/
def hospH2 : HospitalDoc :=
  { id := "H2", name := "General", status := HospitalStatus.inactive }

/-- A create-record body targeting patient P2 at hospital H2. -/
def createBody0 : CreateRecordBody :=
  { patient := "P2", hospital := "H2", visitDate := 20,
    status := RecStatus.active, isEmergency := false }

/-! Claim C1. -/

/-- Claim C1 counterexample: a medical_personnel caller whose profile has
no hospitalId is not denied with IncompleteProfile — the medical-record
list operation succeeds and returns records of two different hospitals
(the absence of hospitalId is treated as access to all hospitals' data). -/
theorem C1_list_returns_all_hospitals :
    listMedicalRecords mpNoHospital ⟨[], [], [recR1, recR2]⟩ = some [recR1, recR2] ∧
    recR1.hospital ≠ recR2.hospital := by
  decide

/-- Claim C1 (amended): for a medical_personnel caller whose profile has
no hospitalId, no IncompleteProfile deny exists — the list operation
applies no hospital filter at all (it returns the first page of every
hospital's records), and canAccessPatient on an existing patient answers
a generic 500 error (from the thrown TypeError), not a profile-based
deny. -/
theorem C1_missing_hospitalId_not_denied (user : AuthUser) (db : DB)
    (hrole : user.role = Role.medical_personnel)
    (hhosp : user.profile.hospitalId = none) :
    listHospitalScope user = none ∧
    listMedicalRecords user db = some ((List.insertionSort recDesc db.records).take 10) ∧
    (∀ pid p, findPatientById db (some pid) = some p →
      canAccessPatient user (some pid) db =
        AccessResult.deny 500 "Error checking patient access") := by
  refine ⟨?_, ?_, ?_⟩
  · simp [listHospitalScope, hrole, hhosp]
  · simp [listMedicalRecords, authorizeRoles, hrole, listHospitalScope, hhosp,
      List.filter_true]
  · intro pid p hfind
    simp [canAccessPatient, hrole, hfind, hhosp]

/-- Claim C1 witness: the amended statement evaluated on a concrete
caller and store. -/
theorem C1_missing_hospitalId_witness :
    listMedicalRecords mpNoHospital ⟨[patientP1], [], [recR1, recR2]⟩ =
      some ((List.insertionSort recDesc [recR1, recR2]).take 10) ∧
    canAccessPatient mpNoHospital (some ("P1")) ⟨[patientP1], [], [recR1, recR2]⟩ =
      AccessResult.deny 500 "Error checking patient access" := by
  have h := C1_missing_hospitalId_not_denied mpNoHospital
    ⟨[patientP1], [], [recR1, recR2]⟩ rfl rfl
  exact ⟨h.2.1, h.2.2 "P1" patientP1 rfl⟩

/-! Claim C2. -/

/-- Claim C2 counterexample: a patient-role caller (linked to P0) asking
for the existing foreign patient P1 is denied with a 403 Forbidden
response, not the 404 NotFound the claim requires. -/
theorem C2_foreign_patient_is_forbidden :
    canAccessPatient patientUserP0 (some ("P1")) ⟨[patientP1], [], []⟩ =
      AccessResult.deny 403 "Access denied - can only access own records" := by
  decide

/-- Claim C2 (amended): for a patient-role caller the decision is Allow
iff the request's patientId parameter equals the caller's own patientId
property (no store lookup is involved); in every other case — foreign or
non-existent target alike — the decision is Deny with 403 Forbidden, so
callers still cannot distinguish an existing-but-foreign patient from a
non-existent one, but via Forbidden rather than NotFound. -/
theorem C2_patient_access_forbidden_not_notfound (user : AuthUser)
    (pid : Option String) (db : DB) (hrole : user.role = Role.patient) :
    (canAccessPatient user pid db = AccessResult.next ↔ user.patientId = pid) ∧
    (user.patientId ≠ pid →
      canAccessPatient user pid db =
        AccessResult.deny 403 "Access denied - can only access own records") := by
  constructor
  · by_cases h : user.patientId = pid <;>
      simp [canAccessPatient, hrole, h]
  · intro h
    simp [canAccessPatient, hrole, h]

/-- Claim C2 witness: the amended statement evaluated on a concrete
caller: own id passes, a foreign existing id gets 403. -/
theorem C2_patient_access_witness :
    canAccessPatient patientUserP0 (some ("P0")) ⟨[], [], []⟩ = AccessResult.next ∧
    canAccessPatient patientUserP0 (some ("P1")) ⟨[patientP1], [], []⟩ =
      AccessResult.deny 403 "Access denied - can only access own records" := by
  constructor
  · exact (C2_patient_access_forbidden_not_notfound patientUserP0 (some ("P0"))
      ⟨[], [], []⟩ rfl).1.mpr rfl
  · exact (C2_patient_access_forbidden_not_notfound patientUserP0 (some ("P1"))
      ⟨[patientP1], [], []⟩ rfl).2 (by decide)

/-! Claim C4. -/

/-- Claim C4 counterexample: a medical_personnel caller of hospital H1
successfully creates a record for an inactive patient at the inactive
hospital H2, which is not the caller's hospital — all three preconditions
the claim states are violated, yet creation succeeds. -/
theorem C4_create_ignores_activity_and_hospital :
    createMedicalRecord mpH1 createBody0 "R9" ⟨[patientP2inactive], [hospH2], []⟩ =
      CreateRecordResult.created
        { id := "R9", patient := "P2", hospital := "H2", createdBy := "U2",
          visitDate := 20, status := RecStatus.active, isEmergency := false } ∧
    patientP2inactive.isActive = false ∧
    hospH2.status ≠ HospitalStatus.active ∧
    mpH1.profile.hospitalId ≠ some ("H2") := by
  decide

/-- Claim C4 (amended): creation of a MedicalRecord by a
medical_personnel or admin caller succeeds iff the target patient id and
hospital id each resolve to an existing document; the patient's and
hospital's active status and the caller's own hospitalId are not
checked. -/
theorem C4_create_requires_existence_only (user : AuthUser)
    (body : CreateRecordBody) (newId : String) (db : DB)
    (hrole : user.role = Role.medical_personnel ∨ user.role = Role.admin) :
    ((∃ r, createMedicalRecord user body newId db = CreateRecordResult.created r) ↔
      (findPatientById db (some body.patient)).isSome ∧
        (findHospitalById db body.hospital).isSome) := by
  have hauth : authorizeRoles [Role.medical_personnel, Role.admin] user =
      AccessResult.next := by
    rcases hrole with h | h <;> simp [authorizeRoles, h]
  cases hp : findPatientById db (some body.patient) <;>
    cases hh : findHospitalById db body.hospital <;>
      simp [createMedicalRecord, hauth, hp, hh]

/-- Claim C4 witness: the amended statement evaluated on a concrete
caller and store in which both lookups succeed. -/
theorem C4_create_witness :
    ∃ r, createMedicalRecord mpH1 createBody0 "R9" ⟨[patientP2inactive], [hospH2], []⟩ =
      CreateRecordResult.created r := by
  exact (C4_create_requires_existence_only mpH1 createBody0 "R9"
    ⟨[patientP2inactive], [hospH2], []⟩ (Or.inl rfl)).mpr (by decide)

/-! Claim C5. -/

/-- Searching by id commutes with mapping an id-preserving function over
the record list. -/
theorem find?_map_id_pres (f : MRDoc → MRDoc) (hf : ∀ r, (f r).id = r.id)
    (i : String) (l : List MRDoc) :
    List.find? (fun r => r.id == i) (l.map f) =
      (List.find? (fun r => r.id == i) l).map f := by
  induction l with
  | nil => rfl
  | cons r rs ih =>
    simp only [List.map_cons, List.find?_cons, hf]
    cases h : r.id == i <;> simp [h, ih]

/-- Lookup after archiving: archiving only patches the status of the
matching record, so findRecordById returns the same record with the
status patch applied. -/
theorem findRecordById_archive (db : DB) (rid : String) (paramRid : Option String) :
    findRecordById (archiveMedicalRecord db rid) paramRid =
      (findRecordById db paramRid).map (fun r =>
        if r.id == rid then { r with status := RecStatus.archived } else r) := by
  cases paramRid with
  | none => rfl
  | some i =>
    simp only [findRecordById, archiveMedicalRecord]
    exact find?_map_id_pres _
      (fun r => by cases h : r.id == rid <;> simp [h]) i db.records

/-- Claim C5 counterexample: after a record of hospital H1 is archived,
the update decision for a (non-admin) medical_personnel caller of that
same hospital is still Allow, and the stored record really is archived. -/
theorem C5_archived_record_still_updatable :
    putMedicalRecordDecision mpH1 (some ("R1"))
        (archiveMedicalRecord ⟨[], [], [recR1]⟩ "R1") = AccessResult.next ∧
    (findRecordById (archiveMedicalRecord ⟨[], [], [recR1]⟩ "R1")
        (some ("R1"))).map MRDoc.status = some RecStatus.archived ∧
    mpH1.role ≠ Role.admin := by
  decide

/-- Claim C5 (amended): archiving a MedicalRecord changes no access
decision at all — the update-route decision and the read-route decision
are both exactly what they were before archiving, for every caller
(archived records stay updatable by the record's own hospital's
medical_personnel; reads stay Allow for previously authorized callers).
The only archived-sensitivity in the code is the public QR records view,
which filters archived records out. -/
theorem C5_archiving_changes_no_decision (user : AuthUser)
    (paramRid : Option String) (db : DB) (rid : String) :
    putMedicalRecordDecision user paramRid (archiveMedicalRecord db rid) =
      putMedicalRecordDecision user paramRid db ∧
    getMedicalRecordDecision user paramRid (archiveMedicalRecord db rid) =
      getMedicalRecordDecision user paramRid db := by
  have hcan : canAccessMedicalRecord user paramRid (archiveMedicalRecord db rid) =
      canAccessMedicalRecord user paramRid db := by
    simp only [canAccessMedicalRecord, findRecordById_archive]
    cases hf : findRecordById db paramRid with
    | none => rfl
    | some r => by_cases hr : r.id = rid <;> simp [hr]
  exact ⟨by simp [putMedicalRecordDecision, hcan], by
    simp [getMedicalRecordDecision, hcan]⟩

/-! Claim C6. -/

/-- Claim C6 counterexample: a medical_personnel caller of hospital H1
reading the existing active patient P1 — registered only at hospital H2 —
is denied with 403, so reading a patient is hospital-scoped at the entity
level, contrary to the claim. -/
theorem C6_foreign_hospital_patient_denied :
    canAccessPatient mpH1 (some ("P1")) ⟨[patientP1], [], []⟩ =
      AccessResult.deny 403 "Access denied - patient not registered at your hospital" ∧
    patientP1.isActive = true := by
  decide

/-- Claim C6 (amended): for a medical_personnel caller with a hospitalId
and an existing patient, the read-patient decision is Allow iff the
patient has an active registration at the caller's hospital or the
patient's primaryHospital is the caller's hospital; otherwise it is
denied (403, or 500 when primaryHospital is absent). -/
theorem C6_patient_read_is_hospital_scoped (user : AuthUser) (pid : String)
    (db : DB) (p : PatientDoc) (hid : String)
    (hrole : user.role = Role.medical_personnel)
    (hhosp : user.profile.hospitalId = some hid)
    (hfind : findPatientById db (some pid) = some p) :
    (canAccessPatient user (some pid) db = AccessResult.next ↔
      isRegisteredAtHospital p hid = true ∨ p.primaryHospital = some hid) := by
  by_cases hreg : isRegisteredAtHospital p hid
  · simp [canAccessPatient, hrole, hhosp, hfind, hreg]
  · cases hph : p.primaryHospital with
    | none => simp [canAccessPatient, hrole, hhosp, hfind, hreg, hph]
    | some ph =>
      by_cases hp : ph = hid <;>
        simp [canAccessPatient, hrole, hhosp, hfind, hreg, hph, hp]

/-- Claim C6 witness: the amended statement evaluated concretely — the
caller's-hospital patient P3 is readable, via the registration arm. -/
theorem C6_patient_read_witness :
    canAccessPatient mpH1 (some ("P3")) ⟨[patientP3], [], []⟩ = AccessResult.next := by
  exact (C6_patient_read_is_hospital_scoped mpH1 "P3" ⟨[patientP3], [], []⟩
    patientP3 "H1" rfl rfl rfl).mpr (Or.inl (by decide))

/-! Claim C3. -/

/-- Optional strings contribute no keys. -/
theorem allKeys_optStr (o : Option String) : allKeys (optStr o) = [] := by
  cases o <;> rfl

/-- Optional booleans contribute no keys. -/
theorem allKeys_optBool (o : Option Bool) : allKeys (optBool o) = [] := by
  cases o <;> rfl

/-- The age value contributes no keys. -/
theorem allKeys_snapshotAge (p : PatientDoc) : allKeys (snapshotAge p) = [] := by
  cases h : p.calculatedAge <;> simp [snapshotAge, h, allKeys]

/-- Keys of a projected allergy entry. -/
theorem allKeys_allergyJ (a : Allergy) :
    allKeys (allergyJ a) = ["allergen", "reaction", "severity"] := by
  simp [allergyJ, allKeys, allKeysFields, allKeys_optStr]

/-- Keys of a projected chronic-illness entry. -/
theorem allKeys_chronicJ (c : ChronicIllness) :
    allKeys (chronicJ c) = ["condition", "severity", "isActive"] := by
  simp [chronicJ, allKeys, allKeysFields, allKeys_optStr, allKeys_optBool]

/-- Keys of the emergencyContact projection (its address subfield is gone). -/
theorem allKeys_emergencyContactJ (ec : Option EmergencyContact) :
    allKeys (emergencyContactJ ec) = ["name", "relationship", "phone"] := by
  cases ec <;>
    simp [emergencyContactJ, allKeys, allKeysFields, allKeys_optStr]

/-- Keys of the projected allergy array all come from its three-key shape. -/
theorem mem_allKeysList_map_allergyJ (xs : List Allergy) :
    ∀ k ∈ allKeysList (xs.map allergyJ),
      k ∈ (["allergen", "reaction", "severity"] : List String) := by
  induction xs with
  | nil => intro k hk; simp [allKeysList] at hk
  | cons a as ih =>
    intro k hk
    simp only [List.map_cons, allKeysList, allKeys_allergyJ,
      List.mem_append] at hk
    rcases hk with hk | hk
    · exact hk
    · exact ih k hk

/-- Keys of the projected chronic-illness array all come from its
three-key shape. -/
theorem mem_allKeysList_map_chronicJ (xs : List ChronicIllness) :
    ∀ k ∈ allKeysList (xs.map chronicJ),
      k ∈ (["condition", "severity", "isActive"] : List String) := by
  induction xs with
  | nil => intro k hk; simp [allKeysList] at hk
  | cons c cs ih =>
    intro k hk
    simp only [List.map_cons, allKeysList, allKeys_chronicJ,
      List.mem_append] at hk
    rcases hk with hk | hk
    · exact hk
    · exact ih k hk

/-- Keys of the emergency-subscription projection come from its enumerated
flags. -/
theorem mem_allKeys_subscriptionJ (es : Option EmergencySubscription) :
    ∀ k ∈ allKeys (subscriptionJ es),
      k ∈ (["isActive", "subscriptionType", "coverage", "emergency",
        "ambulance", "surgery", "medication"] : List String) := by
  cases es with
  | none => intro k hk; simp [subscriptionJ, allKeys] at hk
  | some e =>
    intro k hk
    cases hc : e.coverage <;>
      simp [subscriptionJ, coverageJ, allKeys, allKeysFields, allKeys_optStr,
        allKeys_optBool, hc] at hk ⊢ <;>
      tauto

/-- The top-level keys buildPatientSnapshot's object literal enumerates. -/
def emergencySnapshotTopKeys : List String :=
  ["patientId", "fullName", "gender", "age", "bloodGroup", "genotype",
   "allergies", "chronicIllnesses", "emergencySubscription",
   "emergencyContact", "lastUpdated"]

/-- Every key buildPatientSnapshot may emit at any nesting depth. -/
def emergencySnapshotAllowedKeys : List String :=
  emergencySnapshotTopKeys ++
    ["allergen", "reaction", "severity", "condition", "isActive",
     "subscriptionType", "coverage", "emergency", "ambulance", "surgery",
     "medication", "name", "relationship", "phone"]

/-- Claim C3: for every input patient document — including documents
carrying adversarial extra fields — the EmergencySnapshot projection has
exactly the enumerated top-level keys, every key at every nesting depth is
in the allow-list, and in particular hmoProvider and address never occur
anywhere in it. -/
theorem C3_snapshot_allowlist (p : PatientDoc) :
    topKeys (buildPatientSnapshot p) = emergencySnapshotTopKeys ∧
    (∀ k ∈ allKeys (buildPatientSnapshot p), k ∈ emergencySnapshotAllowedKeys) ∧
    "hmoProvider" ∉ allKeys (buildPatientSnapshot p) ∧
    "address" ∉ allKeys (buildPatientSnapshot p) := by
  have hmem : ∀ k ∈ allKeys (buildPatientSnapshot p),
      k ∈ emergencySnapshotAllowedKeys := by
    intro k hk
    have hsub := mem_allKeys_subscriptionJ p.emergencySubscription k
    have hall := mem_allKeysList_map_allergyJ p.medicalHistory.allergies k
    have hchr := mem_allKeysList_map_chronicJ p.medicalHistory.chronicIllnesses k
    simp only [buildPatientSnapshot, allKeys, allKeysFields, allKeys_optStr,
      allKeys_snapshotAge, allKeys_emergencyContactJ, List.append_nil,
      List.nil_append, List.mem_cons, List.mem_append, List.not_mem_nil,
      or_false, false_or] at hk
    rcases hk with rfl | rfl | rfl | rfl | rfl | rfl | rfl | h | rfl | h | rfl
      | h | rfl | hk3 | rfl
    · decide
    · decide
    · decide
    · decide
    · decide
    · decide
    · decide
    · have h2 := hall h
      fin_cases h2 <;> decide
    · decide
    · have h2 := hchr h
      fin_cases h2 <;> decide
    · decide
    · have h2 := hsub h
      fin_cases h2 <;> decide
    · decide
    · rcases hk3 with rfl | rfl | rfl <;> decide
    · decide
  refine ⟨by simp [buildPatientSnapshot, topKeys, emergencySnapshotTopKeys],
    hmem, fun h => ?_, fun h => ?_⟩
  · have := hmem _ h
    simp [emergencySnapshotAllowedKeys, emergencySnapshotTopKeys] at this
  · have := hmem _ h
    simp [emergencySnapshotAllowedKeys, emergencySnapshotTopKeys] at this

/-- Claim C3 witness: the allow-list statement evaluated on a concrete
patient document, with the membership hypothesis discharged at the key
patientId. -/
theorem C3_snapshot_witness :
    topKeys (buildPatientSnapshot patientP1) = emergencySnapshotTopKeys ∧
    ("patientId" ∈ emergencySnapshotAllowedKeys) ∧
    "hmoProvider" ∉ allKeys (buildPatientSnapshot patientP1) := by
  have h := C3_snapshot_allowlist patientP1
  exact ⟨h.1, h.2.1 "patientId" (by decide), h.2.2.1⟩

/-! Claim C7. -/

/-- A patient holding an HMO subscription (used by C10) and the
emergency_only access level. -/
def hmo0 : HmoProvider :=
  { providerName := some ("AXA"), policyNumber := some ("POL123"),
    status := some ("active") }

/-- An active emergency_only patient with an HMO provider. -/
def patientP4 : PatientDoc :=
  { patientP1 with
    id := "P4"
    patientId := "PA000004"
    qrCode := some ("LAMR-PA000004-9")
    hmoProvider := some hmo0
    accessLevel := AccessLevel.emergency_only }

/-- Claim C7 counterexample: when the regeneration happens in the same
logical instant as the code's original issuance (Date.now() returns the
very timestamp embedded in the current code), regenerateQrForPatient
rebuilds the identical string, so the old code still resolves to the
patient after regeneration completes — it does not return NotFound. -/
theorem C7_same_instant_code_survives :
    patientP1.qrCode = some (regenCode "PA000001" 5) ∧
    scanLookup (regenerateQrForPatient ⟨[patientP1], [], []⟩ "P1" 5)
        "LAMR-PA000001-5" ≠ none := by
  decide

/-- Claim C7 (amended): regeneration invalidates the previous code
provided the rebuilt code differs from the old one (the regeneration
timestamp is not the very timestamp embedded in the old code) and no
other patient holds the old code: under those hypotheses every subsequent
public lookup of the old code finds nothing. -/
theorem C7_regen_invalidates_old_code (db : DB) (pid : String) (now : Nat)
    (oldCode : String)
    (hothers : ∀ q ∈ db.patients, q.id ≠ pid → q.qrCode ≠ some oldCode)
    (hnew : ∀ q ∈ db.patients, q.id = pid → regenCode q.patientId now ≠ oldCode) :
    scanLookup (regenerateQrForPatient db pid now) oldCode = none := by
  simp only [scanLookup, regenerateQrForPatient, List.find?_eq_none]
  intro x hx
  rcases List.mem_map.mp hx with ⟨q, hq, rfl⟩
  by_cases hid : q.id = pid
  · have hne : regenCode q.patientId now ≠ oldCode := hnew q hq hid
    simp [hid, hne]
  · have hne : q.qrCode ≠ some oldCode := hothers q hq hid
    simp [hid, hne]

/-- Claim C7 witness: the amended statement on a concrete store,
regenerating one logical instant after issuance. -/
theorem C7_regen_witness :
    scanLookup (regenerateQrForPatient ⟨[patientP1], [], []⟩ "P1" 6)
      "LAMR-PA000001-5" = none := by
  exact C7_regen_invalidates_old_code ⟨[patientP1], [], []⟩ "P1" 6
    "LAMR-PA000001-5" (by decide) (by decide)

/-! Claim C9. -/

/-- Claim C9 counterexample: a store failure in the public QR scan route
is not normalized to a NotFound result — the handler answers a 500
response whose error field carries the raw store exception's message. -/
theorem C9_store_error_message_leaks :
    scanHandler (StoreResult.err "CastError: malformed id") =
      ScanResponse.serverError "Failed to scan QR code"
        (some ("CastError: malformed id")) ∧
    scanHandler (StoreResult.err "CastError: malformed id") ≠
      ScanResponse.notFound := by
  exact ⟨rfl, fun h => ScanResponse.noConfusion h⟩

/-- Claim C9 (amended): Entity Store failures are caught (no raw
exception escapes a handler) but they are normalized to a 500
server-error response that carries the store error's message in its
error field — not to a NotFoundError — in both the QR scan route and the
get-patient route; the canAccessPatient middleware's catch block answers
a generic 500 without the message (see the C1 theorem). -/
theorem C9_store_errors_become_500 (m : String) :
    scanHandler (StoreResult.err m) =
      ScanResponse.serverError "Failed to scan QR code" (some m) ∧
    getPatientByIdHandler (StoreResult.err m) =
      PatientByIdResponse.serverError "Failed to get patient" (some m) := by
  exact ⟨rfl, rfl⟩

/-! Claim C10. -/

/-- Claim C10: for every active patient resolved by QR code, when the
patient has an hmoProvider the unauthenticated patient-access operation
answers the emergency snapshot together with the provider's providerName,
policyNumber and status, whatever the patient's accessLevel is. -/
theorem C10_patient_access_exposes_hmo (db : DB) (code : String)
    (p : PatientDoc) (h : HmoProvider)
    (hfind : scanLookup db code = some p)
    (hhmo : p.hmoProvider = some h) :
    patientAccessHandler db code =
      PatientAccessResponse.ok (buildPatientSnapshot p)
        (some (h.providerName, h.policyNumber, h.status)) p.accessLevel := by
  simp [patientAccessHandler, hfind, hhmo]

/-- Claim C10 witness: the statement evaluated on a concrete store whose
patient is emergency_only and HMO-subscribed. -/
theorem C10_patient_access_witness :
    patientAccessHandler ⟨[patientP4], [], []⟩ "LAMR-PA000004-9" =
      PatientAccessResponse.ok (buildPatientSnapshot patientP4)
        (some (some ("AXA"), some ("POL123"), some ("active")))
        AccessLevel.emergency_only := by
  exact C10_patient_access_exposes_hmo ⟨[patientP4], [], []⟩ "LAMR-PA000004-9"
    patientP4 hmo0 rfl rfl

/-! Claim C8. -/

/-- Claim C8: the unauthenticated QR patient-records view: when the
patient's accessLevel is emergency_only the view is refused with a Deny
response regardless of the records' state; otherwise it returns at most 5
records, all non-archived records of that patient from the store, ordered
by visit date descending, and such that every non-returned candidate is
no more recent than every returned one (the 5 most recent). -/
theorem C8_qr_records_capped_and_gated (db : DB) (code : String)
    (p : PatientDoc) (hfind : scanLookup db code = some p) :
    (p.accessLevel = AccessLevel.emergency_only →
      patientRecordsHandler db code = QrRecordsResponse.restricted) ∧
    (p.accessLevel ≠ AccessLevel.emergency_only →
      ∃ recs, patientRecordsHandler db code =
          QrRecordsResponse.ok p.patientId p.accessLevel recs ∧
        recs.length ≤ 5 ∧
        List.Sorted recDesc recs ∧
        (∀ r ∈ recs, r ∈ db.records ∧ r.patient = p.id ∧
          r.status ≠ RecStatus.archived) ∧
        (∀ s ∈ db.records, s.patient = p.id → s.status ≠ RecStatus.archived →
          s ∉ recs → ∀ r ∈ recs, s.visitDate ≤ r.visitDate)) := by
  constructor
  · intro hlvl
    simp [patientRecordsHandler, hfind, hlvl]
  · intro hlvl
    refine ⟨(List.insertionSort recDesc
      (db.records.filter (fun r =>
        r.patient == p.id && !(r.status == RecStatus.archived)))).take 5,
      ?_, ?_, ?_, ?_, ?_⟩
    · simp [patientRecordsHandler, hfind, hlvl]
    · exact List.length_take_le 5 _
    · exact (List.sorted_insertionSort recDesc _).sublist
        (List.take_sublist 5 _)
    · intro r hr
      have hr2 : r ∈ List.insertionSort recDesc
          (db.records.filter (fun r =>
            r.patient == p.id && !(r.status == RecStatus.archived))) :=
        List.take_subset 5 _ hr
      have hr3 := (List.mem_insertionSort recDesc).mp hr2
      have hr4 := List.mem_filter.mp hr3
      refine ⟨hr4.1, ?_, ?_⟩
      · have := hr4.2
        simp only [Bool.and_eq_true, beq_iff_eq, Bool.not_eq_true',
          beq_eq_false_iff_ne] at this
        exact this.1
      · have := hr4.2
        simp only [Bool.and_eq_true, beq_iff_eq, Bool.not_eq_true',
          beq_eq_false_iff_ne] at this
        exact this.2
    · intro s hs hpat hstat hnot r hr
      have hsf : s ∈ db.records.filter (fun r =>
          r.patient == p.id && !(r.status == RecStatus.archived)) := by
        refine List.mem_filter.mpr ⟨hs, ?_⟩
        simp only [Bool.and_eq_true, beq_iff_eq, Bool.not_eq_true',
          beq_eq_false_iff_ne]
        exact ⟨hpat, hstat⟩
      have hss : s ∈ List.insertionSort recDesc
          (db.records.filter (fun r =>
            r.patient == p.id && !(r.status == RecStatus.archived))) :=
        (List.mem_insertionSort recDesc).mpr hsf
      have hsorted := List.sorted_insertionSort recDesc
        (db.records.filter (fun r =>
          r.patient == p.id && !(r.status == RecStatus.archived)))
      rw [← List.take_append_drop 5 (List.insertionSort recDesc
        (db.records.filter (fun r =>
          r.patient == p.id && !(r.status == RecStatus.archived))))] at hss
      have hdrop : s ∈ (List.insertionSort recDesc
          (db.records.filter (fun r =>
            r.patient == p.id && !(r.status == RecStatus.archived)))).drop 5 := by
        rcases List.mem_append.mp hss with h | h
        · exact absurd h hnot
        · exact h
      have hpair := hsorted
      rw [List.Sorted, ← List.take_append_drop 5 (List.insertionSort recDesc
        (db.records.filter (fun r =>
          r.patient == p.id && !(r.status == RecStatus.archived)))),
        List.pairwise_append] at hpair
      exact hpair.2.2 r hr s hdrop

/-- Claim C8 witness: the statement evaluated on concrete stores — the
emergency_only patient P4 is refused, and the limited patient P1 with two
records gets a capped, sorted, non-archived listing. -/
theorem C8_qr_records_witness :
    patientRecordsHandler ⟨[patientP4], [], []⟩ "LAMR-PA000004-9" =
      QrRecordsResponse.restricted ∧
    (∃ recs, patientRecordsHandler ⟨[patientP1], [], [recR1, recR2]⟩
        "LAMR-PA000001-5" =
        QrRecordsResponse.ok patientP1.patientId patientP1.accessLevel recs ∧
      recs.length ≤ 5 ∧
      List.Sorted recDesc recs ∧
      (∀ r ∈ recs, r ∈ [recR1, recR2] ∧ r.patient = patientP1.id ∧
        r.status ≠ RecStatus.archived) ∧
      (∀ s ∈ [recR1, recR2], s.patient = patientP1.id →
        s.status ≠ RecStatus.archived → s ∉ recs →
          ∀ r ∈ recs, s.visitDate ≤ r.visitDate)) := by
  constructor
  · exact (C8_qr_records_capped_and_gated ⟨[patientP4], [], []⟩
      "LAMR-PA000004-9" patientP4 rfl).1 rfl
  · exact (C8_qr_records_capped_and_gated ⟨[patientP1], [], [recR1, recR2]⟩
      "LAMR-PA000001-5" patientP1 rfl).2 (by decide)

end MedRec
